import Mathlib

/-!
Shallow embedding of the Weather-App store layer
(`src/context/WeatherContext.jsx`, `src/api/weatherApi.js` in its current
revision with per-call key validation, `src/components/ForecastSection.jsx`,
`src/components/HourlyForecast.jsx`).

The store is a React context provider; its state is embedded as an explicit
record `StoreState`, and each asynchronous operation is embedded as a pure
function from the pre-state and the joint outcome of its two concurrent
fetches (`Promise.all` settles with both payloads or with the first
rejection) to the post-state plus the list of external effects it performs
(storage writes and triggered load operations).
-/

namespace WeatherApp

/-- An axios-style error response: HTTP status plus the optional `message`
field of the parsed error body (`error.response.data?.message`). -/
structure ErrResponse where
  status : Nat
  dataMessage : Option String
  deriving DecidableEq, Repr

/-- A caught failure as it reaches the store catch blocks after the
`err instanceof Error` normalization: an optional HTTP response and the
error message string (axios uses the message "Network Error" for a generic
transport failure with no response). -/
structure CaughtError where
  response : Option ErrResponse
  message : String
  deriving DecidableEq, Repr

/-- `error.response?.status` (optional chaining). -/
def statusOf (e : CaughtError) : Option Nat :=
  e.response.map ErrResponse.status

/-- `error.response?.data?.message` (optional chaining). -/
def dataMessageOf (e : CaughtError) : Option String :=
  e.response.bind ErrResponse.dataMessage

/-- Error-message cascade of the `catch` block of `loadWeather`
(WeatherContext.jsx lines 125–141).  The final branch is
`error.response?.data?.message || 'City not found. Please try again.'`:
JavaScript `||` falls back to the default when the message field is absent
or is the empty string (falsy). -/
def classifyWeatherLoad (e : CaughtError) : String :=
  if statusOf e = some 401 then
    "API authentication failed. Please check your configuration."
  else if statusOf e = some 429 then
    "Too many requests. Please wait a moment and try again."
  else if statusOf e = some 404 then
    "City not found. Please check the spelling and try again."
  else if e.response = none ∧ e.message = "Network Error" then
    "Network error. Please check your connection and try again."
  else
    match dataMessageOf e with
    | some m => if m = "" then "City not found. Please try again." else m
    | none => "City not found. Please try again."

/-- Error-message cascade of the `catch` block of `loadWeatherByCoords`
(WeatherContext.jsx lines 172–186). -/
def classifyGeo (e : CaughtError) : String :=
  if statusOf e = some 401 then
    "API authentication failed. Please check your configuration."
  else if statusOf e = some 429 then
    "Too many requests. Please wait a moment and try again."
  else if statusOf e = some 404 then
    "Unable to find weather for your location."
  else if e.response = none ∧ e.message = "Network Error" then
    "Network error. Please check your connection and try again."
  else
    "Could not fetch weather for your location."

/-- The two operation kinds distinguished by the spec classifier. -/
inductive OpKind where
  | weatherLoad
  | geo
  deriving DecidableEq, Repr

/-- Classifier written from the spec text of §4.2, rules checked in order,
first match wins; rule 5 for `weather-load` reads "use the upstream error
body's message field if present", i.e. any present message string is used,
with the fallback only when the field is absent. -/
def specClassify (k : OpKind) (e : CaughtError) : String :=
  if statusOf e = some 401 then
    "API authentication failed. Please check your configuration."
  else if statusOf e = some 429 then
    "Too many requests. Please wait a moment and try again."
  else if statusOf e = some 404 then
    match k with
    | .weatherLoad => "City not found. Please check the spelling and try again."
    | .geo => "Unable to find weather for your location."
  else if e.response = none ∧ e.message = "Network Error" then
    "Network error. Please check your connection and try again."
  else
    match k with
    | .weatherLoad =>
        match dataMessageOf e with
        | some m => m
        | none => "City not found. Please try again."
    | .geo => "Could not fetch weather for your location."

/-- The spec cascade of §4.2 amended only in rule 5 for `weather-load`:
the upstream message field is used when present and non-empty, the fallback
covers an absent or empty message (matching the JavaScript falsiness test). -/
def specClassifyAmended (k : OpKind) (e : CaughtError) : String :=
  if statusOf e = some 401 then
    "API authentication failed. Please check your configuration."
  else if statusOf e = some 429 then
    "Too many requests. Please wait a moment and try again."
  else if statusOf e = some 404 then
    match k with
    | .weatherLoad => "City not found. Please check the spelling and try again."
    | .geo => "Unable to find weather for your location."
  else if e.response = none ∧ e.message = "Network Error" then
    "Network error. Please check your connection and try again."
  else
    match k with
    | .weatherLoad =>
        match dataMessageOf e with
        | some m => if m = "" then "City not found. Please try again." else m
        | none => "City not found. Please try again."
    | .geo => "Could not fetch weather for your location."

/-- The part of a successful current-weather payload the store and the
hourly derivation read: the reported city name (`cur.name`, used by
`loadWeatherByCoords`) and the optional timezone offset. -/
structure CurrentPayload where
  name : String
  timezone : Option Int
  deriving DecidableEq, Repr

/-- One forecast entry as consumed by the derivations: unix timestamp `dt`
and the textual timestamp `dt_txt` ("YYYY-MM-DD HH:MM:SS"). -/
structure ForecastEntry where
  dt : Nat
  dt_txt : String
  deriving DecidableEq, Repr

/-- A forecast payload; `list = none` models an absent or non-array `list`
field (both rejected by the components' `Array.isArray` guard). -/
structure ForecastPayload where
  list : Option (List ForecastEntry)
  deriving DecidableEq, Repr

/-- The state held by `WeatherProvider`: city, units, theme, the two
snapshots, the loading flag, the error message, and the recent-city list. -/
structure StoreState where
  city : String
  units : String
  theme : String
  current : Option CurrentPayload
  forecast : Option ForecastPayload
  loading : Bool
  error : Option String
  recentCities : List String
  deriving DecidableEq, Repr

/-- Joint outcome of the `Promise.all` pair inside a load operation: both
fetches succeed, or the operation fails with the first rejection. -/
inductive FetchOutcome where
  | success (cur : CurrentPayload) (fore : ForecastPayload)
  | failure (e : CaughtError)
  deriving DecidableEq, Repr

/-- External effects a store operation performs: best-effort localStorage
writes and the load operation triggered by `toggleUnits`. -/
inductive Effect where
  | persistUnits (v : String)
  | persistTheme (v : String)
  | persistRecent (v : List String)
  | loadByName (city : String) (units : String)
  | fetchPairByName (city : String) (units : String)
  | fetchPairByCoords (lat : Int) (lon : Int) (units : String)
  deriving DecidableEq, Repr

/-- Recent-city update performed by `loadWeather` on joint success:
`[cityName, ...prev.filter((c) => c.toLowerCase() !== cityName.toLowerCase())].slice(0, 5)`. -/
def updateRecent (cityName : String) (prev : List String) : List String :=
  (cityName :: prev.filter (fun c => c.toLower != cityName.toLower)).take 5

/-- `loadWeather(cityName, unitPref)` (WeatherContext.jsx lines 79–147) as a
function of the pre-state and the joint fetch outcome.  In the source
`unitPref` defaults to the current `units`; callers here pass it explicitly.
The `finally` block makes `loading := false` on every path; the success path
persists the updated recent-city list (best-effort). -/
def loadWeather (s : StoreState) (cityName unitPref : String) (o : FetchOutcome) :
    StoreState × List Effect :=
  match o with
  | .success cur fore =>
      let next := updateRecent cityName s.recentCities
      ({ s with current := some cur, forecast := some fore, city := cityName,
                recentCities := next, loading := false, error := none },
       [Effect.fetchPairByName cityName unitPref, Effect.persistRecent next])
  | .failure e =>
      ({ s with loading := false, error := some (classifyWeatherLoad e) },
       [Effect.fetchPairByName cityName unitPref])

/-- `loadWeatherByCoords(lat, lon)` (WeatherContext.jsx lines 149–192): on
joint success, city is set from the response's reported name; the recent-city
list is never touched and nothing is persisted. -/
def loadWeatherByCoords (s : StoreState) (lat lon : Int) (o : FetchOutcome) :
    StoreState × List Effect :=
  match o with
  | .success cur fore =>
      ({ s with current := some cur, forecast := some fore, city := cur.name,
                loading := false, error := none },
       [Effect.fetchPairByCoords lat lon s.units])
  | .failure e =>
      ({ s with loading := false, error := some (classifyGeo e) },
       [Effect.fetchPairByCoords lat lon s.units])

/-- `toggleUnits()` (WeatherContext.jsx lines 194–210): flip the unit
system, persist it, then — `if (city)`, i.e. the city string is non-empty —
trigger `loadWeather(city, next)` with the new units. -/
def toggleUnits (s : StoreState) : StoreState × List Effect :=
  let next := if s.units = "metric" then "imperial" else "metric"
  ({ s with units := next },
   Effect.persistUnits next ::
     (if s.city ≠ "" then [Effect.loadByName s.city next] else []))

/-- `toggleTheme()` (WeatherContext.jsx lines 212–229): flip the theme and
persist it; no network effect. -/
def toggleTheme (s : StoreState) : StoreState × List Effect :=
  let next := if s.theme = "dark" then "light" else "dark"
  ({ s with theme := next }, [Effect.persistTheme next])

/-- Outcome of a guarded `localStorage.getItem` call: the value (or `null`),
or the read threw. -/
inductive StorageRead where
  | ok (v : Option String)
  | failed
  deriving DecidableEq, Repr

/-- `units` initializer (WeatherContext.jsx lines 14–30): the saved value is
kept only when truthy and one of "metric"/"imperial"; otherwise — including
an unreadable store — the default "metric". -/
def unitsInit : StorageRead → String
  | .ok (some s) => if s ≠ "" ∧ (s = "metric" ∨ s = "imperial") then s else "metric"
  | .ok none => "metric"
  | .failed => "metric"

/-- `theme` initializer (WeatherContext.jsx lines 31–47): the saved value is
kept only when truthy and one of "dark"/"light"; otherwise the default
"dark". -/
def themeInit : StorageRead → String
  | .ok (some s) => if s ≠ "" ∧ (s = "dark" ∨ s = "light") then s else "dark"
  | .ok none => "dark"
  | .failed => "dark"

/-- What the `recentCities` initializer (WeatherContext.jsx lines 52–77)
finds in storage, at the granularity its control flow distinguishes:
the read threw; `null`; the empty string (falsy, skips the parse); a string
`JSON.parse` rejects; a string parsing to a JSON array of strings; a string
parsing to valid non-array JSON. -/
inductive RecentStored where
  | getFailed
  | absent
  | emptyString
  | invalidJson
  | parsedArray (xs : List String)
  | parsedOther
  deriving DecidableEq, Repr

/-- `recentCities` initializer: the resulting initial list, paired with
whether a best-effort `localStorage.removeItem('recentCities')` was
attempted.  The `catch` branch (read threw, or `JSON.parse` threw) removes;
a parsed value that is not an array merely falls through to the `[]`
default without removing, and a parsed array is returned as-is. -/
def recentCitiesInit : RecentStored → List String × Bool
  | .getFailed => ([], true)
  | .absent => ([], false)
  | .emptyString => ([], false)
  | .invalidJson => ([], true)
  | .parsedArray xs => (xs, false)
  | .parsedOther => ([], false)

/-- Environment configuration read by the API client at module load:
`VITE_WEATHER_API_KEY` and `VITE_WEATHER_BASE_URL`, each possibly absent. -/
structure ApiConfig where
  apiKey : Option String
  baseUrl : Option String
  deriving DecidableEq, Repr

/-- JavaScript truthiness of an optional string: `undefined` and `""` are
falsy. -/
def jsTruthy : Option String → Bool
  | none => false
  | some s => s != ""

/-- `ensureApiKey` (weatherApi.js): throws the configuration error when the
key is falsy, before any request is built. -/
def ensureApiKey (cfg : ApiConfig) : Except String Unit :=
  if jsTruthy cfg.apiKey then Except.ok ()
  else Except.error "API key is not configured. Please check your environment variables."

/-- The HTTP request an API-client operation issues when the key check
passes: path and query parameters. -/
structure ApiRequest where
  path : String
  params : List (String × String)
  deriving DecidableEq, Repr

/-- `fetchCurrentWeather(city, units)`: key check, then
`GET /data/2.5/weather?q=…`.  The result is the request issued; an error
means no request was issued. -/
def fetchCurrentWeather (cfg : ApiConfig) (city units : String) :
    Except String ApiRequest := do
  ensureApiKey cfg
  pure ⟨"/data/2.5/weather",
    [("q", city), ("appid", cfg.apiKey.getD ""), ("units", units)]⟩

/-- `fetchCurrentWeatherByCoords(lat, lon, units)`. -/
def fetchCurrentWeatherByCoords (cfg : ApiConfig) (lat lon : Int)
    (units : String) : Except String ApiRequest := do
  ensureApiKey cfg
  pure ⟨"/data/2.5/weather",
    [("lat", toString lat), ("lon", toString lon),
     ("appid", cfg.apiKey.getD ""), ("units", units)]⟩

/-- `fetchForecast(city, units)`: requests a fixed `cnt=40`. -/
def fetchForecast (cfg : ApiConfig) (city units : String) :
    Except String ApiRequest := do
  ensureApiKey cfg
  pure ⟨"/data/2.5/forecast",
    [("q", city), ("appid", cfg.apiKey.getD ""), ("units", units), ("cnt", "40")]⟩

/-- `fetchForecastByCoords(lat, lon, units)`. -/
def fetchForecastByCoords (cfg : ApiConfig) (lat lon : Int)
    (units : String) : Except String ApiRequest := do
  ensureApiKey cfg
  pure ⟨"/data/2.5/forecast",
    [("lat", toString lat), ("lon", toString lon),
     ("appid", cfg.apiKey.getD ""), ("units", units), ("cnt", "40")]⟩

/-- `searchCities(query)`: `GET /geo/1.0/direct?q=…&limit=5`. -/
def searchCities (cfg : ApiConfig) (query : String) :
    Except String ApiRequest := do
  ensureApiKey cfg
  pure ⟨"/geo/1.0/direct",
    [("q", query), ("limit", "5"), ("appid", cfg.apiKey.getD "")]⟩

/-- `item.dt_txt.split(' ')[0]`: the calendar-date key of an entry. -/
def dateKey (dt_txt : String) : String :=
  (dt_txt.splitOn " ").headD ""

/-- One step of `groupByDay`'s accumulation `days[date].push(item)`:
JavaScript object keys (non-integer strings here) keep insertion order, so
the accumulator is an ordered association list. -/
def insertEntry (days : List (String × List ForecastEntry)) (key : String)
    (item : ForecastEntry) : List (String × List ForecastEntry) :=
  match days with
  | [] => [(key, [item])]
  | (k, items) :: rest =>
      if k = key then (k, items ++ [item]) :: rest
      else (k, items) :: insertEntry rest key item

/-- The `days` object built by `groupByDay`'s `forEach`, as
`Object.entries` would list it. -/
def buildDays (list : List ForecastEntry) : List (String × List ForecastEntry) :=
  list.foldl (fun acc item => insertEntry acc (dateKey item.dt_txt) item) []

/-- `groupByDay(list)` (ForecastSection.jsx lines 7–15):
`Object.entries(days).slice(1, 6)` — skip today, take the next 5 days. -/
def groupByDay (list : List ForecastEntry) : List (String × List ForecastEntry) :=
  ((buildDays list).drop 1).take 5

/-- The 5-day derivation as guarded inside `ForecastSection`: `null` is
rendered (modelled as `[]`) when the forecast is absent, its `list` is
absent or not an array, or the list is empty; otherwise `groupByDay`. -/
def forecastSectionDays (forecast : Option ForecastPayload) :
    List (String × List ForecastEntry) :=
  match forecast with
  | none => []
  | some f =>
      match f.list with
      | none => []
      | some l => if l = [] then [] else groupByDay l

/-- The hour-slicing derivation as guarded inside `HourlyForecast`:
`forecast.list.slice(0, 9)` behind the same structural guard. -/
def hourlySlice (forecast : Option ForecastPayload) : List ForecastEntry :=
  match forecast with
  | none => []
  | some f =>
      match f.list with
      | none => []
      | some l => if l = [] then [] else l.take 9

/-- Claim C1 (corrected), counterexample to the claim as stated: for a
failure whose error body carries the message field with the empty string
(status 500, so rules 1–4 do not apply), the spec's rule 5 ("use the
upstream error body's message field if present") yields `""`, but the code
(`error.response?.data?.message || '…'`) yields the fallback, because the
empty string is falsy in JavaScript. -/
theorem c1_empty_message_counterexample :
    dataMessageOf ⟨some ⟨500, some ""⟩, "Request failed"⟩ = some "" ∧
    specClassify OpKind.weatherLoad ⟨some ⟨500, some ""⟩, "Request failed"⟩ = "" ∧
    classifyWeatherLoad ⟨some ⟨500, some ""⟩, "Request failed"⟩
      = "City not found. Please try again." := by
  refine ⟨rfl, ?_, ?_⟩ <;> rfl

/-- Claim C1 (corrected, amended): the weather-load and geolocation catch
blocks implement exactly the §4.2 cascade — rules checked in order, first
match winning, with the stated strings — amended only in that the fallback
of rule 5 for weather-load also covers a present-but-empty message field. -/
theorem c1_classifier_matches_amended_spec (e : CaughtError) :
    classifyWeatherLoad e = specClassifyAmended OpKind.weatherLoad e ∧
    classifyGeo e = specClassifyAmended OpKind.geo e :=
  ⟨rfl, rfl⟩

/-- Claim C3: both load operations set `loading := false` on every path —
joint success, HTTP failure, or transport failure — mirroring the `finally`
blocks; no outcome leaves `loading` stuck `true`. -/
theorem c3_loading_always_false (s : StoreState) (cityName unitPref : String)
    (lat lon : Int) (o o2 : FetchOutcome) :
    (loadWeather s cityName unitPref o).1.loading = false ∧
    (loadWeatherByCoords s lat lon o2).1.loading = false := by
  cases o <;> cases o2 <;> exact ⟨rfl, rfl⟩

/-- Claim C9: a forecast payload whose entry list is absent (or not an
array) or empty makes both derivations return the empty result without
crashing, and the raw `groupByDay` and prefix-slice on an empty list are
themselves empty. -/
theorem c9_empty_forecast_safe (f : ForecastPayload)
    (h : f.list = none ∨ f.list = some []) :
    forecastSectionDays (some f) = [] ∧ hourlySlice (some f) = [] ∧
    groupByDay [] = [] ∧ ([] : List ForecastEntry).take 9 = [] := by
  rcases h with h | h <;>
    simp [forecastSectionDays, hourlySlice, groupByDay, buildDays, h]

/-- Claim C9 witness at the payload with an absent list. -/
theorem c9_empty_forecast_safe_witness :
    forecastSectionDays (some ⟨none⟩) = [] ∧ hourlySlice (some ⟨none⟩) = [] ∧
    groupByDay [] = [] ∧ ([] : List ForecastEntry).take 9 = [] :=
  c9_empty_forecast_safe ⟨none⟩ (Or.inl rfl)

/-- Claim C10: `loadWeatherByCoords` never touches the recent-city list,
and its only effect is the coordinate fetch pair — in particular it never
persists `recentCities` — whether the fetches succeed or fail. -/
theorem c10_coords_preserve_recent (s : StoreState) (lat lon : Int)
    (o : FetchOutcome) :
    (loadWeatherByCoords s lat lon o).1.recentCities = s.recentCities ∧
    (loadWeatherByCoords s lat lon o).2
      = [Effect.fetchPairByCoords lat lon s.units] := by
  cases o <;> exact ⟨rfl, rfl⟩

/-- Claim C2 (corrected), counterexample to the claim as stated: the
`recentCities` initializer returns any persisted JSON array as-is, so a
stored array of six cities (well-formed JSON, passes `Array.isArray`)
becomes an initial list of 6 entries — the 5-entry bound does not hold at
Store initialization. -/
theorem c2_init_unbounded_counterexample :
    ¬ ((recentCitiesInit (RecentStored.parsedArray
        ["Paris", "London", "Tokyo", "Delhi", "Cairo", "Lima"])).1.length ≤ 5) := by
  decide

/-- Claim C2 (corrected, amended): after every completed `loadWeatherByName`
whose prior list satisfies the case-insensitive-distinctness invariant, the
list equals the `updateRecent` result, has at most 5 entries, starts with
the newly submitted casing, remains case-insensitively duplicate-free, and
its remaining entries keep their previous (most-recent-first) order; Store
initialization, however, accepts any persisted JSON array as-is, without
enforcing the bound or the dedup. -/
theorem c2_recent_list_invariant (s : StoreState) (cityName unitPref : String)
    (cur : CurrentPayload) (fore : ForecastPayload)
    (h : s.recentCities.Pairwise fun a b => a.toLower ≠ b.toLower) :
    (loadWeather s cityName unitPref (FetchOutcome.success cur fore)).1.recentCities
      = updateRecent cityName s.recentCities ∧
    (updateRecent cityName s.recentCities).length ≤ 5 ∧
    (updateRecent cityName s.recentCities).head? = some cityName ∧
    (updateRecent cityName s.recentCities).Pairwise
      (fun a b => a.toLower ≠ b.toLower) ∧
    List.Sublist (updateRecent cityName s.recentCities).tail s.recentCities := by
  refine ⟨rfl, ?_, rfl, ?_, ?_⟩
  · simp only [updateRecent, List.length_take]
    exact min_le_left _ _
  · have hfil : (s.recentCities.filter
        (fun c => c.toLower != cityName.toLower)).Pairwise
        (fun a b => a.toLower ≠ b.toLower) :=
      h.sublist (List.filter_sublist _)
    have hcons : ((cityName :: s.recentCities.filter
        (fun c => c.toLower != cityName.toLower))).Pairwise
        (fun a b => a.toLower ≠ b.toLower) := by
      rw [List.pairwise_cons]
      refine ⟨?_, hfil⟩
      intro b hb
      rcases List.mem_filter.mp hb with ⟨-, hb2⟩
      exact (bne_iff_ne.mp hb2).symm
    exact hcons.sublist (List.take_sublist _ _)
  · exact List.Sublist.trans (List.take_sublist _ _) (List.filter_sublist _)

/-- Claim C2 witness: a concrete state whose recent list is
case-insensitively distinct, updated with a re-submission of "Paris" in new
casing. -/
theorem c2_recent_list_invariant_witness :
    (loadWeather
        ⟨"Kolkata", "metric", "dark", none, none, false, none, ["London"]⟩
        "Paris" "metric"
        (FetchOutcome.success ⟨"Paris", some 0⟩ ⟨some []⟩)).1.recentCities
      = updateRecent "Paris" ["London"] ∧
    (updateRecent "Paris" ["London"]).length ≤ 5 ∧
    (updateRecent "Paris" ["London"]).head? = some "Paris" ∧
    (updateRecent "Paris" ["London"]).Pairwise
      (fun a b => a.toLower ≠ b.toLower) ∧
    List.Sublist (updateRecent "Paris" ["London"]).tail ["London"] :=
  c2_recent_list_invariant
    ⟨"Kolkata", "metric", "dark", none, none, false, none, ["London"]⟩
    "Paris" "metric" ⟨"Paris", some 0⟩ ⟨some []⟩ (by simp)

/-- Claim C4: when `loadWeatherByName` fails (any caught error from either
concurrent fetch), the current snapshot, forecast snapshot, city, recent
list, units and theme are all unchanged, the only effect is the fetch pair
itself (nothing persisted), and the error is exactly the classifier string —
in particular an HTTP 404 yields the spelled-out city-not-found message. -/
theorem c4_failure_leaves_snapshots (s : StoreState) (cityName unitPref : String)
    (e : CaughtError) :
    (loadWeather s cityName unitPref (FetchOutcome.failure e)).1.current = s.current ∧
    (loadWeather s cityName unitPref (FetchOutcome.failure e)).1.forecast = s.forecast ∧
    (loadWeather s cityName unitPref (FetchOutcome.failure e)).1.city = s.city ∧
    (loadWeather s cityName unitPref (FetchOutcome.failure e)).1.recentCities
      = s.recentCities ∧
    (loadWeather s cityName unitPref (FetchOutcome.failure e)).1.units = s.units ∧
    (loadWeather s cityName unitPref (FetchOutcome.failure e)).1.theme = s.theme ∧
    (loadWeather s cityName unitPref (FetchOutcome.failure e)).2
      = [Effect.fetchPairByName cityName unitPref] ∧
    (loadWeather s cityName unitPref (FetchOutcome.failure e)).1.error
      = some (classifyWeatherLoad e) ∧
    (statusOf e = some 404 →
      (loadWeather s cityName unitPref (FetchOutcome.failure e)).1.error
        = some "City not found. Please check the spelling and try again.") := by
  refine ⟨rfl, rfl, rfl, rfl, rfl, rfl, rfl, rfl, ?_⟩
  intro h404
  have h401 : statusOf e ≠ some 401 := by rw [h404]; simp
  have h429 : statusOf e ≠ some 429 := by rw [h404]; simp
  simp [loadWeather, classifyWeatherLoad, h404, h401, h429]

/-- Claim C4 witness: a 404 failure against a state holding previously
loaded snapshots. -/
theorem c4_failure_leaves_snapshots_witness :
    (loadWeather
        ⟨"Delhi", "metric", "dark", some ⟨"Delhi", some 19800⟩, some ⟨some []⟩,
         false, none, ["Delhi"]⟩
        "Atlantis" "metric"
        (FetchOutcome.failure ⟨some ⟨404, some "city not found"⟩,
          "Request failed with status code 404"⟩)).1.error
      = some "City not found. Please check the spelling and try again." ∧
    (loadWeather
        ⟨"Delhi", "metric", "dark", some ⟨"Delhi", some 19800⟩, some ⟨some []⟩,
         false, none, ["Delhi"]⟩
        "Atlantis" "metric"
        (FetchOutcome.failure ⟨some ⟨404, some "city not found"⟩,
          "Request failed with status code 404"⟩)).1.current
      = some ⟨"Delhi", some 19800⟩ := by
  have h := c4_failure_leaves_snapshots
    ⟨"Delhi", "metric", "dark", some ⟨"Delhi", some 19800⟩, some ⟨some []⟩,
     false, none, ["Delhi"]⟩
    "Atlantis" "metric"
    ⟨some ⟨404, some "city not found"⟩, "Request failed with status code 404"⟩
  exact ⟨h.2.2.2.2.2.2.2.2 rfl, h.1⟩

/-- Claim C5: every one of the five API-client operations, on every input,
fails with the configuration error — issuing no request — whenever the
access credential is absent or empty; the check runs inside each call (the
configuration is an argument of every operation here, mirroring
`ensureApiKey()` being invoked at the top of each source function). -/
theorem c5_missing_key_fails_fast (cfg : ApiConfig) (city query units : String)
    (lat lon : Int) (h : cfg.apiKey = none ∨ cfg.apiKey = some "") :
    fetchCurrentWeather cfg city units
      = Except.error "API key is not configured. Please check your environment variables." ∧
    fetchCurrentWeatherByCoords cfg lat lon units
      = Except.error "API key is not configured. Please check your environment variables." ∧
    fetchForecast cfg city units
      = Except.error "API key is not configured. Please check your environment variables." ∧
    fetchForecastByCoords cfg lat lon units
      = Except.error "API key is not configured. Please check your environment variables." ∧
    searchCities cfg query
      = Except.error "API key is not configured. Please check your environment variables." := by
  have hk : ensureApiKey cfg
      = Except.error "API key is not configured. Please check your environment variables." := by
    rcases h with h | h <;> rw [ensureApiKey, h] <;> rfl
  refine ⟨?_, ?_, ?_, ?_, ?_⟩ <;>
    simp [fetchCurrentWeather, fetchCurrentWeatherByCoords, fetchForecast,
          fetchForecastByCoords, searchCities, hk]

/-- Claim C5 witness: a configuration with the empty-string key. -/
theorem c5_missing_key_fails_fast_witness :
    fetchCurrentWeather ⟨some "", some "https://api.openweathermap.org"⟩ "Paris" "metric"
      = Except.error "API key is not configured. Please check your environment variables." ∧
    fetchCurrentWeatherByCoords ⟨some "", some "https://api.openweathermap.org"⟩ 22 88 "metric"
      = Except.error "API key is not configured. Please check your environment variables." ∧
    fetchForecast ⟨some "", some "https://api.openweathermap.org"⟩ "Paris" "metric"
      = Except.error "API key is not configured. Please check your environment variables." ∧
    fetchForecastByCoords ⟨some "", some "https://api.openweathermap.org"⟩ 22 88 "metric"
      = Except.error "API key is not configured. Please check your environment variables." ∧
    searchCities ⟨some "", some "https://api.openweathermap.org"⟩ "Par"
      = Except.error "API key is not configured. Please check your environment variables." :=
  c5_missing_key_fails_fast ⟨some "", some "https://api.openweathermap.org"⟩
    "Paris" "Par" "metric" 22 88 (Or.inr rfl)

/-- Claim C6: `toggleUnits` flips the unit system between the two valid
values, emits the persistence of the new value, and — since a city is set —
emits exactly one `loadWeather(city, next)` invocation with the new unit
system; the effect list is exactly the persist followed by that single
load, so no client-side conversion and no second fetch exists. -/
theorem c6_toggle_units_refetch (s : StoreState)
    (hu : s.units = "metric" ∨ s.units = "imperial") (hc : s.city ≠ "") :
    ((toggleUnits s).1.units = "metric" ∨ (toggleUnits s).1.units = "imperial") ∧
    (toggleUnits s).1.units ≠ s.units ∧
    (s.units = "metric" → (toggleUnits s).1.units = "imperial") ∧
    (s.units = "imperial" → (toggleUnits s).1.units = "metric") ∧
    (toggleUnits s).2
      = [Effect.persistUnits (toggleUnits s).1.units,
         Effect.loadByName s.city (toggleUnits s).1.units] := by
  rcases hu with hu | hu <;> simp [toggleUnits, hu, hc]

/-- Claim C6 witness: metric state with the default city "Kolkata" set;
the toggle yields "imperial", persists it, and triggers the single
refetch for "Kolkata" in "imperial". -/
theorem c6_toggle_units_refetch_witness :
    ((toggleUnits ⟨"Kolkata", "metric", "dark", none, none, false, none, []⟩).1.units
        = "metric" ∨
      (toggleUnits ⟨"Kolkata", "metric", "dark", none, none, false, none, []⟩).1.units
        = "imperial") ∧
    (toggleUnits ⟨"Kolkata", "metric", "dark", none, none, false, none, []⟩).1.units
      ≠ "metric" ∧
    ("metric" = "metric" →
      (toggleUnits ⟨"Kolkata", "metric", "dark", none, none, false, none, []⟩).1.units
        = "imperial") ∧
    ("metric" = "imperial" →
      (toggleUnits ⟨"Kolkata", "metric", "dark", none, none, false, none, []⟩).1.units
        = "metric") ∧
    (toggleUnits ⟨"Kolkata", "metric", "dark", none, none, false, none, []⟩).2
      = [Effect.persistUnits
          (toggleUnits ⟨"Kolkata", "metric", "dark", none, none, false, none, []⟩).1.units,
         Effect.loadByName "Kolkata"
          (toggleUnits ⟨"Kolkata", "metric", "dark", none, none, false, none, []⟩).1.units] :=
  c6_toggle_units_refetch ⟨"Kolkata", "metric", "dark", none, none, false, none, []⟩
    (Or.inl rfl) (by decide)

/-- Claim C7: the unit system is always one of "metric"/"imperial" and the
theme one of "dark"/"light": the initializers keep a persisted value only
if it is in the valid set, map any other string — and an unreadable store —
to the defaults "metric"/"dark", and the only operations that change these
fields (the toggles) stay inside the valid sets, while the load operations
never touch them. -/
theorem c7_units_theme_validated :
    (∀ r, (unitsInit r = "metric" ∨ unitsInit r = "imperial") ∧
          (themeInit r = "dark" ∨ themeInit r = "light")) ∧
    (∀ s, s ≠ "metric" → s ≠ "imperial" →
      unitsInit (StorageRead.ok (some s)) = "metric") ∧
    (∀ s, s ≠ "dark" → s ≠ "light" →
      themeInit (StorageRead.ok (some s)) = "dark") ∧
    unitsInit StorageRead.failed = "metric" ∧
    themeInit StorageRead.failed = "dark" ∧
    (∀ st, ((toggleUnits st).1.units = "metric" ∨
            (toggleUnits st).1.units = "imperial") ∧
           ((toggleTheme st).1.theme = "dark" ∨
            (toggleTheme st).1.theme = "light")) ∧
    (∀ st c u o, (loadWeather st c u o).1.units = st.units ∧
                 (loadWeather st c u o).1.theme = st.theme) ∧
    (∀ st lat lon o, (loadWeatherByCoords st lat lon o).1.units = st.units ∧
                     (loadWeatherByCoords st lat lon o).1.theme = st.theme) := by
  refine ⟨?_, ?_, ?_, rfl, rfl, ?_, ?_, ?_⟩
  · intro r
    cases r with
    | ok v =>
        cases v with
        | none => exact ⟨Or.inl rfl, Or.inl rfl⟩
        | some s =>
            constructor
            · simp only [unitsInit]
              split_ifs with h
              · exact h.2
              · exact Or.inl rfl
            · simp only [themeInit]
              split_ifs with h
              · exact h.2
              · exact Or.inl rfl
    | failed => exact ⟨Or.inl rfl, Or.inl rfl⟩
  · intro s h1 h2; simp [unitsInit, h1, h2]
  · intro s h1 h2; simp [themeInit, h1, h2]
  · intro st
    constructor
    · by_cases h : st.units = "metric" <;> simp [toggleUnits, h]
    · by_cases h : st.theme = "dark" <;> simp [toggleTheme, h]
  · intro st c u o; cases o <;> exact ⟨rfl, rfl⟩
  · intro st lat lon o; cases o <;> exact ⟨rfl, rfl⟩

/-- Claim C7 witness: an arbitrary unvalidated persisted string ("banana")
and an unreadable store both fall back to the documented defaults. -/
theorem c7_units_theme_validated_witness :
    unitsInit (StorageRead.ok (some "banana")) = "metric" ∧
    themeInit (StorageRead.ok (some "banana")) = "dark" ∧
    unitsInit StorageRead.failed = "metric" ∧
    themeInit StorageRead.failed = "dark" := by
  have h := c7_units_theme_validated
  exact ⟨h.2.1 "banana" (by decide) (by decide),
         h.2.2.1 "banana" (by decide) (by decide),
         h.2.2.2.1, h.2.2.2.2.1⟩

/-- Claim C8 (corrected), counterexample to the claim as stated: a stored
value that is valid JSON but not an array (e.g. the string "42") fails to
parse as an array, and the initializer does return the empty-list default —
but it performs no `removeItem`: the purge happens only in the `catch`
branch, i.e. when reading or `JSON.parse` throws. -/
theorem c8_nonarray_no_purge_counterexample :
    (recentCitiesInit RecentStored.parsedOther).1 = [] ∧
    (recentCitiesInit RecentStored.parsedOther).2 = false :=
  ⟨rfl, rfl⟩

/-- Claim C8 (corrected, amended): for every stored value other than a
parsed JSON array, the initializer returns the empty-list default without
throwing (it is a total function), and the best-effort purge is attempted
exactly when the read or the JSON parse throws — not when the value parses
to non-array JSON. -/
theorem c8_corrupted_recent_default (r : RecentStored)
    (h : ∀ xs, r ≠ RecentStored.parsedArray xs) :
    (recentCitiesInit r).1 = [] ∧
    ((recentCitiesInit r).2 = true ↔
      (r = RecentStored.getFailed ∨ r = RecentStored.invalidJson)) := by
  cases r <;> first
    | exact absurd rfl (h _)
    | simp [recentCitiesInit]

/-- Claim C8 witness: a stored string `JSON.parse` rejects. -/
theorem c8_corrupted_recent_default_witness :
    (recentCitiesInit RecentStored.invalidJson).1 = [] ∧
    ((recentCitiesInit RecentStored.invalidJson).2 = true ↔
      (RecentStored.invalidJson = RecentStored.getFailed ∨
       RecentStored.invalidJson = RecentStored.invalidJson)) :=
  c8_corrupted_recent_default RecentStored.invalidJson (by intro xs h; cases h)

end WeatherApp
